import Mathlib

/-!
Shallow embedding of `plugins/connection/httpapi.py` (class `Connection`,
the ansible.netcommon httpapi connection plugin).

Python dictionaries of header name/value pairs are modelled as association
lists (`Headers`).  Python truthiness (`None` and the empty dict are falsy)
is made explicit through the `pyTruthy…` helpers, and the Python `or`
operator on such values through `pyOr…`.  The HTTP transport (`open_url`)
is modelled as an oracle: each call to `send` consumes the next element of a
list of `Outcome`s; an empty list stands for the outer timeout cutting the
(otherwise unbounded) retry loop short.  The platform handler
(`self.httpapi`) is an oracle record supplying `handle_httperror` and
`update_auth`; `login` is an oracle passed to `connect` that may mutate the
auth state before returning or before raising.
-/

namespace Httpapi

/-- A header mapping (Python `dict` of header name to value). -/
abbrev Headers := List (String × String)

/-- Python truthiness of a dict-or-None value: `None` and `{}` are falsy. -/
def pyTruthyAuth : Option Headers → Bool
  | none => false
  | some m => !m.isEmpty

/-- Python truthiness of a string-or-None value: `None` and `""` are falsy. -/
def pyTruthyStr : Option String → Bool
  | none => false
  | some s => !s.isEmpty

/-- Python `a or b` for dict-or-None values: yields `a` when truthy, else `b`. -/
def pyOrAuth (a b : Option Headers) : Option Headers :=
  if pyTruthyAuth a then a else b

/-- Python `a or b` for string-or-None values: yields `a` when truthy, else `b`. -/
def pyOrStr (a b : Option String) : Option String :=
  if pyTruthyStr a then a else b

/-- Python `a or b` where `a` is an int-or-None option value and `b` an int:
`None` and `0` are falsy. -/
def pyOrNat (a : Option Nat) (b : Nat) : Nat :=
  match a with
  | none => b
  | some n => if n = 0 then b else n

/-- `d[k] = v` on an association-list dict: overwrite the entry if the key is
present, else append a new entry (insertion order is preserved, as for a
Python dict). -/
def dictSet (d : Headers) (k v : String) : Headers :=
  if d.any (fun p => p.1 = k) then
    d.map (fun p => if p.1 = k then (k, v) else p)
  else
    d ++ [(k, v)]

/-- Python `d.update(u)`: set every pair of `u` into `d`, in order. -/
def dictUpdate (d u : Headers) : Headers :=
  u.foldl (fun acc p => dictSet acc p.1 p.2) d

/-- The configuration surface read through `self.get_option` (and the
play-context user).  Optional values model options that may be unset. -/
structure Options where
  host : String
  port : Option Nat
  use_ssl : Bool
  validate_certs : Bool
  use_proxy : Bool
  timeout : Nat
  remote_user : String
  password : String
  session_key : Option Headers
  platform_type : Option String
deriving Repr, DecidableEq

/-- Response metadata plus body, as produced by `open_url`; `read()` returns
`body`. -/
structure Response where
  status : Nat
  body : String
deriving Repr, DecidableEq

/-- An `HTTPError` raised by `open_url` on an HTTP error status. -/
structure HttpErr where
  code : Nat
  msg : String
deriving Repr, DecidableEq

/-- A `BytesIO` buffer: its contents and the current position. -/
structure Buffer where
  data : String
  pos : Nat
deriving Repr, DecidableEq

/-- The value returned by `self.handle_httperror(exc)`: the code tests
`is_handled is True` and `is_handled is False`; any other value is assigned
to `response` and processed as a substitute successful response. -/
inductive HandleResult where
  | isTrue
  | isFalse
  | substitute (r : Response)
deriving Repr, DecidableEq

/-- One outcome of a single `open_url` attempt. -/
inductive Outcome where
  | success (r : Response)
  | httpError (e : HttpErr)
  | urlError (reason : String)
deriving Repr, DecidableEq

/-- The platform handler oracle: `handle_httperror` and `update_auth` as
supplied by the loaded httpapi plugin. -/
structure Handler where
  handle_httperror : HttpErr → HandleResult
  update_auth : Response → Buffer → Option Headers

/-- Connection state mutated by `_connect` and `send`: the `_connected` flag
and `self._auth`. -/
structure ConnState where
  connected : Bool
  auth : Option Headers
deriving Repr, DecidableEq

/-! ### `Connection._url` (lines 228-233) -/

/-- `self._url`: scheme from `use_ssl`, host, and `port or (443 if https else
80)` with Python int truthiness. -/
def url (opts : Options) : String :=
  let protocol := if opts.use_ssl then "https" else "http"
  let host := opts.host
  let port := pyOrNat opts.port (if protocol = "https" then 443 else 80)
  protocol ++ "://" ++ host ++ ":" ++ Nat.repr port

/-! ### `Connection.load_platform_plugins` (lines 196-226) -/

/-- A loaded httpapi plugin object, with the fields the method reads. -/
structure HttpApiPlugin where
  load_name : String
  original_path : String
deriving Repr, DecidableEq

/-- Message of the `AnsibleConnectionFailure` raised when no platform type is
determinable (lines 221-225). -/
def resolutionFailureMsg : String :=
  "Unable to automatically determine host platform type. Please "
    ++ "manually configure platform_type value for this host"

/-- Message of the `AnsibleConnectionFailure` raised when the loader returns
no plugin for the given platform type (lines 216-219). -/
def loadFailureMsg (pt : String) : String :=
  "unable to load API plugin for platform type " ++ pt

/-- Result of `load_platform_plugins`: on success, the bound plugin and the
queued diagnostic messages (severity, text); on failure, the message of the
raised `AnsibleConnectionFailure`. -/
def load_platform_plugins (loader : String → Option HttpApiPlugin)
    (opts : Options) (platform_type_arg : Option String) :
    Except String (HttpApiPlugin × List (String × String)) :=
  let platform_type := pyOrStr platform_type_arg opts.platform_type
  if pyTruthyStr platform_type then
    let pt := platform_type.getD ""
    match loader pt with
    | some api =>
        .ok (api,
          [("vvvv",
            "loaded API plugin " ++ api.load_name ++ " from path "
              ++ api.original_path ++ " for platform type " ++ pt),
           ("log", "platform_type is set to " ++ pt)])
    | none =>
        .error (loadFailureMsg pt)
  else
    .error resolutionFailureMsg

/-! ### `Connection._connect` (lines 255-268) -/

/-- Observable calls made by `_connect`. -/
inductive ConnectEvent where
  | trace (severity msg : String)
  | setBecome
  | loginCalled
deriving Repr, DecidableEq

/-- `self._connect()`.  The `login` oracle models
`self.httpapi.login(remote_user, password)`: platform handlers obtain and
store a token by issuing requests through `send`, so a login — succeeding or
failing — may mutate `self._auth` (the assignment at line 350) before it
returns or raises.  The oracle is given the current auth state and yields
the auth state it leaves behind together with the raised exception, if any.
It cannot change `_connected`: that flag is already set when `login` runs,
and `send` never writes it.  The result is the new state, the list of
events, and the raised exception if any. -/
def connect (opts : Options)
    (login : Option Headers → Option Headers × Option String)
    (st : ConnState) : ConnState × List ConnectEvent × Option String :=
  if st.connected then
    (st, [], none)
  else
    let events := [ConnectEvent.trace "vvv"
        ("ESTABLISH HTTP(S) CONNECTFOR USER: " ++ opts.remote_user
          ++ " TO " ++ url opts),
      ConnectEvent.setBecome]
    let st1 : ConnState := { st with connected := true }
    if pyTruthyAuth opts.session_key then
      ({ st1 with auth := opts.session_key }, events, none)
    else
      ({ st1 with auth := (login st1.auth).1 },
        events ++ [ConnectEvent.loginCalled], (login st1.auth).2)

/-! ### `Connection.send`, request composition (lines 286-319) -/

/-- The keyword arguments handed to `open_url`, restricted to the fields the
method sets. -/
structure UrlKwargs where
  timeout : Nat
  validate_certs : Bool
  use_proxy : Bool
  headers : Headers
  force_basic_auth : Bool
  url_username : Option String
  url_password : Option String
deriving Repr, DecidableEq

/-- Lines 286-319 of `send`: build `url_kwargs` from the defaults, the
caller's `kwargs` (here just its optional `headers` entry), and the auth
mode: with a truthy `self._auth` its headers are merged over a copy of the
caller's headers; otherwise basic auth is forced with the configured
credentials. -/
def mkUrlKwargs (opts : Options) (kwargsHeaders : Option Headers)
    (auth : Option Headers) : UrlKwargs :=
  let base : UrlKwargs :=
    { timeout := opts.timeout
      validate_certs := opts.validate_certs
      use_proxy := opts.use_proxy
      headers := []
      force_basic_auth := false
      url_username := none
      url_password := none }
  let base :=
    match kwargsHeaders with
    | some h => { base with headers := h }
    | none => base
  if pyTruthyAuth auth then
    { base with
        headers := dictUpdate (kwargsHeaders.getD []) ((auth).getD []) }
  else
    { base with
        force_basic_auth := true
        url_username := some opts.remote_user
        url_password := some opts.password }

/-! ### `Connection.send`, request loop (lines 321-354) -/

/-- The buffer after `response_buffer.write(response.read())`: full body,
position at the end. -/
def writtenBuffer (r : Response) : Buffer :=
  { data := r.body, pos := r.body.length }

/-- How a call to `send` terminates. -/
inductive SendResult where
  | ok (resp : Response) (buf : Buffer)
  | raisedHttp (e : HttpErr)
  | connFailure (msg : String)
  | exhausted
deriving Repr, DecidableEq

/-- Lines 344-354 of `send`: read the body into a buffer, update
`self._auth` via `self.update_auth(response, response_buffer) or self._auth`,
seek the buffer to 0, and return.  Yields the new `self._auth` and the
result. -/
def processResponse (handler : Handler) (auth : Option Headers)
    (r : Response) : Option Headers × SendResult :=
  let buf := writtenBuffer r
  let newAuth := pyOrAuth (handler.update_auth r buf) auth
  (newAuth, .ok r { buf with pos := 0 })

/-- The `try`/`except` request loop of `send` (lines 321-354).  Each attempt
consumes the head of `outcomes`; the recursive retry calls
(`return self.send(...)`) consume the tail.  An exhausted list models the
outer timeout interrupting an unbounded retry sequence.  Yields the final
`self._auth` together with the result. -/
def send (handler : Handler) (opts : Options) (kwargsHeaders : Option Headers)
    (auth : Option Headers) (retries : Option Nat) (path : String) :
    List Outcome → Option Headers × SendResult
  | [] => (auth, .exhausted)
  | o :: rest =>
    match o with
    | .success r => processResponse handler auth r
    | .httpError e =>
      match handler.handle_httperror e with
      | .isTrue =>
        match retries with
        | none => send handler opts kwargsHeaders auth none path rest
        | some 0 => (auth, .raisedHttp e)
        | some (n + 1) =>
            send handler opts kwargsHeaders auth (some n) path rest
      | .isFalse => (auth, .raisedHttp e)
      | .substitute r => processResponse handler auth r
    | .urlError reason =>
        (auth, .connFailure
          ("Could not connect to " ++ (url opts ++ path) ++ ": " ++ reason))

/-! ### Heap view of the header copy in `send` (lines 311-315)

To state that the caller's `headers` dict is not mutated, dicts get
identities: a heap maps references to contents, `dict(d)` allocates a fresh
reference holding a copy, and `d.update(u)` mutates in place. -/

/-- A heap of dict objects: reference to contents. -/
abbrev Heap := List (Nat × Headers)

/-- Contents of the dict at reference `r` (empty if unallocated). -/
def heapGet (h : Heap) (r : Nat) : Headers :=
  ((h.find? (fun p => p.1 = r)).map Prod.snd).getD []

/-- In-place mutation of the dict at reference `r`. -/
def heapSet (h : Heap) (r : Nat) (v : Headers) : Heap :=
  h.map (fun p => if p.1 = r then (r, v) else p)

/-- A reference not yet used by any dict in the heap. -/
def freshRef (h : Heap) : Nat :=
  (h.map Prod.fst).foldl max 0 + 1

/-- Lines 311-315 with dict identities:
`headers = dict(kwargs.get("headers", {}))` allocates a fresh dict holding a
copy of the caller's dict, `headers.update(self._auth)` mutates the copy,
and the copy becomes `url_kwargs["headers"]`.  Yields the new heap and the
reference stored into `url_kwargs`. -/
def composeHeadersHeap (h : Heap) (callerRef : Nat) (auth : Headers) :
    Heap × Nat :=
  let copied := heapGet h callerRef
  let r := freshRef h
  let h1 := (r, copied) :: h
  let h2 := heapSet h1 r (dictUpdate copied auth)
  (h2, r)

/-! ### Concrete fixtures used by witnesses -/

/-- A concrete configuration. -/
def wOpts : Options :=
  { host := "10.0.0.1"
    port := none
    use_ssl := true
    validate_certs := true
    use_proxy := true
    timeout := 30
    remote_user := "admin"
    password := "secret"
    session_key := none
    platform_type := some "eos" }

/-- A login oracle that succeeds without touching the auth state. -/
def wLoginOk : Option Headers → Option Headers × Option String :=
  fun a => (a, none)

/-- A login oracle that raises after leaving a partial auth mutation behind,
as a handler's failing login can through intermediate `send` calls. -/
def wLoginFail : Option Headers → Option Headers × Option String :=
  fun _ => (some [("stale", "s")], some "Bad credentials")

/-- A configuration with a pre-shared session key. -/
def wOptsSK : Options :=
  { wOpts with session_key := some [("X-Auth-Token", "abc")] }

/-- A handler that declares every HTTP error recoverable and never refreshes
auth. -/
def wHandler : Handler :=
  { handle_httperror := fun _ => .isTrue
    update_auth := fun _ _ => none }

/-- A handler whose `update_auth` returns a fresh token mapping. -/
def wHandlerTok : Handler :=
  { handle_httperror := fun _ => .isFalse
    update_auth := fun _ _ => some [("token", "t")] }

/-- A handler whose `update_auth` returns an empty mapping. -/
def wHandlerEmpty : Handler :=
  { handle_httperror := fun _ => .isFalse
    update_auth := fun _ _ => some [] }

/-- A concrete successful response. -/
def wResp : Response :=
  { status := 200, body := "okbody" }

/-- A concrete HTTP error. -/
def wErr : HttpErr :=
  { code := 401, msg := "Unauthorized" }

/-- A loader that knows exactly one platform type. -/
def wLoader : String → Option HttpApiPlugin :=
  fun s => if s = "eos" then some { load_name := "eos", original_path := "/p/eos.py" } else none

/-! ### Helper lemmas -/

theorem str_append_assoc (a b c : String) : (a ++ b) ++ c = a ++ (b ++ c) := by
  cases a
  cases b
  cases c
  show String.mk _ = String.mk _
  simp [String.append, List.append_assoc]

theorem data_append (a b : String) : (a ++ b).data = a.data ++ b.data := by
  cases a
  cases b
  rfl

theorem pyTruthy_pyOrAuth (a b : Option Headers)
    (hb : pyTruthyAuth b = true) : pyTruthyAuth (pyOrAuth a b) = true := by
  unfold pyOrAuth
  split
  · assumption
  · exact hb

/-! ### Claim theorems -/

/-- C6: `buildBaseUrl` (`_url`) is a pure function of the configuration; with
`use_ssl = false` and no explicit port the URL uses port 80, with
`use_ssl = true` and no explicit port it uses port 443, and the configuration
`{host := "10.0.0.1", use_ssl := true, port unset}` yields the string
`"https://10.0.0.1:443"`. -/
theorem url_default_ports (opts : Options) (hport : opts.port = none) :
    (opts.use_ssl = false → url opts = "http://" ++ opts.host ++ ":80")
    ∧ (opts.use_ssl = true → url opts = "https://" ++ opts.host ++ ":443")
    ∧ url { host := "10.0.0.1", port := none, use_ssl := true,
            validate_certs := true, use_proxy := true, timeout := 30,
            remote_user := "u", password := "p", session_key := none,
            platform_type := none } = "https://10.0.0.1:443" := by
  refine ⟨fun hssl => ?_, fun hssl => ?_, by rfl⟩
  · simp only [url, hssl, pyOrNat, hport, Bool.false_eq_true, if_false]
    rw [str_append_assoc]
    rfl
  · simp only [url, hssl, pyOrNat, hport, if_true]
    rw [str_append_assoc]
    rfl

/-- C6 witness: instantiating `url_default_ports` at a concrete
configuration with `use_ssl = false` gives the port-80 URL. -/
theorem url_default_ports_witness :
    url { wOpts with use_ssl := false } = "http://" ++ "10.0.0.1" ++ ":80" :=
  (url_default_ports { wOpts with use_ssl := false } rfl).1 rfl

/-- C7: when an attempt fails with a low-level network error (`URLError`,
not an HTTP status), `send` fails immediately with a connection failure
carrying the target URL and the underlying reason, independently of any
remaining attempts, the retry budget, and the handler — this layer never
retries such a failure. -/
theorem send_urlerror_no_retry (handler : Handler) (opts : Options)
    (kh : Option Headers) (auth : Option Headers) (retries : Option Nat)
    (path reason : String) (rest : List Outcome) :
    send handler opts kh auth retries path (.urlError reason :: rest)
      = (auth, .connFailure
          ("Could not connect to " ++ (url opts ++ path) ++ ": " ++ reason)) := by
  simp [send]

/-- C8: `connect` is idempotent — when the connection is already connected it
is a no-op: no trace, no `set_become`, no session-key adoption, no login,
and the state is returned unchanged. -/
theorem connect_idempotent (opts : Options)
    (login : Option Headers → Option Headers × Option String) (st : ConnState)
    (h : st.connected = true) :
    connect opts login st = (st, [], none) := by
  simp [connect, h]

/-- C8 witness: `connect` on an already-connected concrete state returns it
unchanged with no events and no error. -/
theorem connect_idempotent_witness :
    connect wOpts wLoginOk { connected := true, auth := none }
      = ({ connected := true, auth := none }, [], none) :=
  connect_idempotent wOpts wLoginOk { connected := true, auth := none } rfl

/-- C2 counterexample: with no session key and a login oracle that raises,
`connect` on a disconnected state propagates the login failure, yet the
resulting state still has `connected = true` — the connection does remain in
the connected state after a failed login, contradicting the claim. -/
theorem connect_login_failure_counterexample :
    (connect wOpts wLoginFail { connected := false, auth := none }).2.2
        = some "Bad credentials"
    ∧ (connect wOpts wLoginFail { connected := false, auth := none }).1.connected
        = true := by
  exact ⟨rfl, rfl⟩

/-- C2 (amended): if login fails during `connect`, the failure propagates
unchanged to the caller, but the connection remains flagged connected — the
`_connected` flag is set before login is attempted and is not reverted on
failure; the auth state is whatever the failing login left behind (a
handler's login may mutate `self._auth` through `send` before raising). -/
theorem connect_login_failure_state (opts : Options)
    (login : Option Headers → Option Headers × Option String) (st : ConnState)
    (e : String)
    (hnc : st.connected = false)
    (hsk : pyTruthyAuth opts.session_key = false)
    (hl : (login st.auth).2 = some e) :
    (connect opts login st).2.2 = some e
    ∧ (connect opts login st).1.connected = true
    ∧ (connect opts login st).1.auth = (login st.auth).1 := by
  simp [connect, hnc, hsk, hl]

/-- C2 witness: the amended statement at a concrete disconnected state and a
failing login oracle. -/
theorem connect_login_failure_state_witness :
    (connect wOpts wLoginFail { connected := false, auth := none }).2.2
      = some "Bad credentials" :=
  (connect_login_failure_state wOpts wLoginFail
    { connected := false, auth := none } "Bad credentials" rfl rfl rfl).1

/-- C1: on an HTTP error status, the value returned by `handle_httperror`
dispatches the outcome in exactly three ways: `True` means recoverable and a
retry is performed following the retry-count rule (`retries` unspecified:
retry with `retries` still unspecified; a positive `retries`: retry with
`retries - 1`; `retries` exactly zero: re-raise the original error without
retrying); `False` means the original HTTP error is re-raised unchanged; any
other return value is processed as a substitute successful response. -/
theorem send_httperror_dispatch (handler : Handler) (opts : Options)
    (kh : Option Headers) (auth : Option Headers) (path : String)
    (e : HttpErr) (rest : List Outcome) :
    (handler.handle_httperror e = .isTrue →
      send handler opts kh auth none path (.httpError e :: rest)
          = send handler opts kh auth none path rest
      ∧ (∀ n : Nat,
          send handler opts kh auth (some (n + 1)) path (.httpError e :: rest)
            = send handler opts kh auth (some n) path rest)
      ∧ send handler opts kh auth (some 0) path (.httpError e :: rest)
          = (auth, .raisedHttp e))
    ∧ (handler.handle_httperror e = .isFalse →
        ∀ retries : Option Nat,
          send handler opts kh auth retries path (.httpError e :: rest)
            = (auth, .raisedHttp e))
    ∧ (∀ r : Response, handler.handle_httperror e = .substitute r →
        ∀ retries : Option Nat,
          send handler opts kh auth retries path (.httpError e :: rest)
            = processResponse handler auth r) := by
  refine ⟨fun h => ⟨?_, fun n => ?_, ?_⟩, fun h retries => ?_, fun r h retries => ?_⟩
  all_goals simp [send, h]

/-- C1 witness: with a handler that always answers `True` and `retries = 0`,
a single HTTP error makes `send` re-raise the original error without
consuming any further attempt. -/
theorem send_httperror_dispatch_witness :
    send wHandler wOpts none none (some 0) "/x"
        [.httpError wErr, .success wResp]
      = (none, .raisedHttp wErr) :=
  ((send_httperror_dispatch wHandler wOpts none none "/x" wErr
    [.success wResp]).1 rfl).2.2

/-- The two failure messages of `load_platform_plugins` are distinct, for
every platform type. -/
theorem resolution_load_msgs_distinct (pt : String) :
    resolutionFailureMsg ≠ loadFailureMsg pt := by
  intro h
  have h2 : resolutionFailureMsg.data = (loadFailureMsg pt).data := by rw [h]
  rw [loadFailureMsg, data_append] at h2
  injection h2 with hc _
  exact absurd hc (by decide)

/-- C5: `load_platform_plugins` fails with the no-platform-type message when
neither the explicit argument nor the configuration supplies a (truthy)
platform type; it fails with the distinct plugin-load message when a
platform type is given but the loader returns no plugin for it; on success
it binds the loaded plugin and queues a diagnostic `vvvv` message naming it. -/
theorem load_platform_plugins_spec (loader : String → Option HttpApiPlugin)
    (opts : Options) (arg : Option String) :
    (pyTruthyStr (pyOrStr arg opts.platform_type) = false →
      load_platform_plugins loader opts arg = .error resolutionFailureMsg)
    ∧ (∀ pt : String, pyOrStr arg opts.platform_type = some pt →
        pt.isEmpty = false → loader pt = none →
        load_platform_plugins loader opts arg = .error (loadFailureMsg pt))
    ∧ (∀ pt : String, resolutionFailureMsg ≠ loadFailureMsg pt)
    ∧ (∀ (pt : String) (api : HttpApiPlugin),
        pyOrStr arg opts.platform_type = some pt →
        pt.isEmpty = false → loader pt = some api →
        ∃ msgs, load_platform_plugins loader opts arg = .ok (api, msgs)
          ∧ ("vvvv", "loaded API plugin " ++ api.load_name ++ " from path "
              ++ api.original_path ++ " for platform type " ++ pt) ∈ msgs) := by
  refine ⟨fun h => ?_, fun pt hpt hne hl => ?_, resolution_load_msgs_distinct,
    fun pt api hpt hne hl => ?_⟩
  · simp [load_platform_plugins, h]
  · simp [load_platform_plugins, hpt, pyTruthyStr, hne, hl]
  · have hok : load_platform_plugins loader opts arg
        = .ok (api,
            [("vvvv", "loaded API plugin " ++ api.load_name ++ " from path "
                ++ api.original_path ++ " for platform type " ++ pt),
             ("log", "platform_type is set to " ++ pt)]) := by
      simp [load_platform_plugins, hpt, pyTruthyStr, hne, hl]
    exact ⟨_, hok, by simp⟩

/-- C5 witness: with no argument and no configured platform type, the
resolution failure is raised with its message. -/
theorem load_platform_plugins_spec_witness :
    load_platform_plugins wLoader { wOpts with platform_type := none } none
      = .error resolutionFailureMsg :=
  (load_platform_plugins_spec wLoader
    { wOpts with platform_type := none } none).1 rfl

/-- C4 counterexample: after `connect` adopts the session key, one
successful `send` with a handler whose `update_auth` returns a fresh token
mapping replaces the session-key auth state (line 350), and a request made
with the resulting auth state no longer carries the session-key header — so
not every subsequent send applies the session-key headers. -/
theorem connect_session_key_counterexample :
    (send wHandlerTok wOptsSK none
        (connect wOptsSK wLoginFail { connected := false, auth := none }).1.auth
        none "/x" [Outcome.success wResp]).1
      = some [("token", "t")]
    ∧ ("X-Auth-Token", "abc")
        ∉ (mkUrlKwargs wOptsSK none
            (send wHandlerTok wOptsSK none
              (connect wOptsSK wLoginFail
                { connected := false, auth := none }).1.auth
              none "/x" [Outcome.success wResp]).1).headers := by
  exact ⟨rfl, by decide⟩

/-- C4 (amended): when a (truthy) pre-shared session key is configured and
the connection is not yet connected, `connect` adopts the session key as the
auth state without ever calling `login` and without error; a subsequent
`send` request carries the current auth state — the session-key headers —
merged over the caller's headers rather than basic-auth credentials, and
successful sends whose `update_auth` returns a falsy value keep the
session-key auth state in place (it persists until some send's `update_auth`
returns a truthy replacement). -/
theorem connect_session_key (opts : Options)
    (login : Option Headers → Option Headers × Option String) (st : ConnState)
    (kh : Option Headers)
    (hsk : pyTruthyAuth opts.session_key = true)
    (hnc : st.connected = false) :
    (connect opts login st).2.2 = none
    ∧ (connect opts login st).1.auth = opts.session_key
    ∧ (connect opts login st).1.connected = true
    ∧ ConnectEvent.loginCalled ∉ (connect opts login st).2.1
    ∧ (mkUrlKwargs opts kh (connect opts login st).1.auth).force_basic_auth
        = false
    ∧ (mkUrlKwargs opts kh (connect opts login st).1.auth).url_username = none
    ∧ (mkUrlKwargs opts kh (connect opts login st).1.auth).headers
        = dictUpdate (kh.getD []) (opts.session_key.getD [])
    ∧ (∀ (handler : Handler) (kh2 : Option Headers) (retries : Option Nat)
        (path : String) (r : Response) (rest : List Outcome),
        pyTruthyAuth (handler.update_auth r (writtenBuffer r)) = false →
        (send handler opts kh2 (connect opts login st).1.auth retries path
            (Outcome.success r :: rest)).1
          = (connect opts login st).1.auth) := by
  have hconn : connect opts login st
      = ({ connected := true, auth := opts.session_key },
          [ConnectEvent.trace "vvv"
            ("ESTABLISH HTTP(S) CONNECTFOR USER: " ++ opts.remote_user
              ++ " TO " ++ url opts),
           ConnectEvent.setBecome], none) := by
    simp [connect, hnc, hsk]
  rw [hconn]
  refine ⟨rfl, rfl, rfl, by simp, ?_, ?_, ?_, ?_⟩
  · cases kh <;> simp [mkUrlKwargs, hsk]
  · cases kh <;> simp [mkUrlKwargs, hsk]
  · cases kh <;> simp [mkUrlKwargs, hsk]
  · intro handler kh2 retries path r rest hfalsy
    simp [send, processResponse, pyOrAuth, hfalsy]

/-- C4 witness: with a concrete session key and a login oracle that would
fail if called, `connect` succeeds and adopts the session key. -/
theorem connect_session_key_witness :
    (connect wOptsSK wLoginFail { connected := false, auth := none }).1.auth
      = some [("X-Auth-Token", "abc")] :=
  (connect_session_key wOptsSK
    wLoginFail { connected := false, auth := none } none rfl rfl).2.1

/-- C3: on a successful request, the full response body is read into a
buffer that is rewound (position 0) before being returned; if `update_auth`
returns a (truthy) new header mapping it replaces the auth state, if it
returns a falsy value the auth state is unchanged; and a subsequent request
made with the new (truthy) auth headers merges them over the caller's
headers instead of falling back to basic-auth credentials. -/
theorem send_success_auth_update (handler : Handler) (opts : Options)
    (kh kh2 : Option Headers) (auth : Option Headers) (retries : Option Nat)
    (path : String) (r : Response) (rest : List Outcome) :
    (send handler opts kh auth retries path (.success r :: rest)).2
      = .ok r { data := r.body, pos := 0 }
    ∧ (∀ m : Headers, handler.update_auth r (writtenBuffer r) = some m →
        m.isEmpty = false →
        (send handler opts kh auth retries path (.success r :: rest)).1 = some m)
    ∧ (pyTruthyAuth (handler.update_auth r (writtenBuffer r)) = false →
        (send handler opts kh auth retries path (.success r :: rest)).1 = auth)
    ∧ (∀ m : Headers, m.isEmpty = false →
        (mkUrlKwargs opts kh2 (some m)).force_basic_auth = false
        ∧ (mkUrlKwargs opts kh2 (some m)).url_username = none
        ∧ (mkUrlKwargs opts kh2 (some m)).url_password = none
        ∧ (mkUrlKwargs opts kh2 (some m)).headers
            = dictUpdate (kh2.getD []) m) := by
  refine ⟨?_, fun m hm hne => ?_, fun hfalsy => ?_, fun m hne => ?_⟩
  · simp [send, processResponse, writtenBuffer]
  · simp [send, processResponse, pyOrAuth, hm, pyTruthyAuth, hne]
  · simp [send, processResponse, pyOrAuth, hfalsy]
  · refine ⟨?_, ?_, ?_, ?_⟩
    all_goals cases kh2 <;> simp [mkUrlKwargs, pyTruthyAuth, hne]

/-- C3 witness: a handler returning a fresh token mapping makes the next
auth state that mapping, at concrete inputs. -/
theorem send_success_auth_update_witness :
    (send wHandlerTok wOpts none none none "/x" [.success wResp]).1
      = some [("token", "t")] :=
  (send_success_auth_update wHandlerTok wOpts none none none none "/x" wResp
    []).2.1 [("token", "t")] rfl rfl

/-! Helper lemmas for the heap view. -/

theorem foldl_max_le_init (l : List Nat) (a : Nat) : a ≤ l.foldl max a := by
  induction l generalizing a with
  | nil => exact le_refl a
  | cons x xs ih => exact le_trans (le_max_left a x) (ih (max a x))

theorem mem_le_foldl_max (l : List Nat) :
    ∀ (a x : Nat), x ∈ l → x ≤ l.foldl max a := by
  induction l with
  | nil =>
    intro a x hx
    cases hx
  | cons y ys ih =>
    intro a x hx
    rcases List.mem_cons.mp hx with h | h
    · subst h
      exact le_trans (le_max_right a x) (foldl_max_le_init ys (max a x))
    · exact ih (max a y) x h

theorem mem_ne_freshRef (h : Heap) (r : Nat) (hr : r ∈ h.map Prod.fst) :
    r ≠ freshRef h := by
  intro he
  have hle := mem_le_foldl_max (h.map Prod.fst) 0 r hr
  rw [freshRef] at he
  omega

theorem heapGet_cons_ne (t : Heap) (p : Nat × Headers) (r : Nat)
    (hne : ¬ p.1 = r) : heapGet (p :: t) r = heapGet t r := by
  simp [heapGet, List.find?, hne]

theorem heapGet_cons_pos (t : Heap) (p : Nat × Headers) (r : Nat)
    (hp : p.1 = r) : heapGet (p :: t) r = p.2 := by
  simp [heapGet, List.find?, hp]

theorem heapGet_heapSet_ne (h : Heap) (r r' : Nat) (v : Headers)
    (hne : r' ≠ r) : heapGet (heapSet h r v) r' = heapGet h r' := by
  induction h with
  | nil => rfl
  | cons p t ih =>
    by_cases hp : p.1 = r
    · have h1 : heapSet (p :: t) r v = (r, v) :: heapSet t r v := by
        simp [heapSet, hp]
      rw [h1, heapGet_cons_ne _ _ _ (fun hc => hne hc.symm), ih,
        heapGet_cons_ne _ _ _ (fun hc => hne (hp ▸ hc).symm)]
    · by_cases hq : p.1 = r'
      · have h1 : heapSet (p :: t) r v = p :: heapSet t r v := by
          simp [heapSet, hp]
        rw [h1, heapGet_cons_pos _ _ _ hq, heapGet_cons_pos _ _ _ hq]
      · have h1 : heapSet (p :: t) r v = p :: heapSet t r v := by
          simp [heapSet, hp]
        rw [h1, heapGet_cons_ne _ _ _ hq, ih, heapGet_cons_ne _ _ _ hq]

/-- C9: the header composition of `send` (copy the caller's headers dict,
then merge the truthy auth headers into the copy) leaves the dict object the
caller passed in unchanged: the composed headers live in a freshly
allocated dict distinct from the caller's, which still holds its original
contents. -/
theorem composeHeaders_frame (h : Heap) (callerRef : Nat) (auth : Headers)
    (hmem : callerRef ∈ h.map Prod.fst) (_hauth : auth ≠ []) :
    heapGet (composeHeadersHeap h callerRef auth).1 callerRef
        = heapGet h callerRef
    ∧ (composeHeadersHeap h callerRef auth).2 ≠ callerRef
    ∧ heapGet (composeHeadersHeap h callerRef auth).1
          (composeHeadersHeap h callerRef auth).2
        = dictUpdate (heapGet h callerRef) auth := by
  have hfresh : callerRef ≠ freshRef h := mem_ne_freshRef h callerRef hmem
  have hcomp : composeHeadersHeap h callerRef auth
      = (heapSet ((freshRef h, heapGet h callerRef) :: h) (freshRef h)
          (dictUpdate (heapGet h callerRef) auth), freshRef h) := rfl
  rw [hcomp]
  refine ⟨?_, Ne.symm hfresh, ?_⟩
  · rw [heapGet_heapSet_ne _ _ _ _ hfresh,
      heapGet_cons_ne _ _ _ (fun hc => hfresh hc.symm)]
  · have h1 : heapSet ((freshRef h, heapGet h callerRef) :: h) (freshRef h)
          (dictUpdate (heapGet h callerRef) auth)
        = (freshRef h, dictUpdate (heapGet h callerRef) auth)
            :: heapSet h (freshRef h) (dictUpdate (heapGet h callerRef) auth) := by
      simp [heapSet]
    rw [h1, heapGet_cons_pos _ _ _ rfl]

/-- C9 witness: on a concrete heap the caller's dict keeps its contents and
the composed dict holds the merge. -/
theorem composeHeaders_frame_witness :
    heapGet (composeHeadersHeap [(1, [("a", "1")])] 1 [("token", "t")]).1 1
      = [("a", "1")] :=
  (composeHeaders_frame [(1, [("a", "1")])] 1 [("token", "t")]
    (by simp) (by simp)).1

/-- C10: if `update_auth` returns `None` or an empty header mapping on a
successful request, the auth state keeps its previous value; and no `send`
can turn a truthy (non-empty) auth state into a falsy one — the auth state
stays truthy through every sequence of attempts. -/
theorem send_auth_never_cleared (handler : Handler) (opts : Options)
    (kh : Option Headers) (auth : Option Headers) (retries : Option Nat)
    (path : String) (r : Response) (rest outcomes : List Outcome) :
    (pyTruthyAuth (handler.update_auth r (writtenBuffer r)) = false →
      (send handler opts kh auth retries path (.success r :: rest)).1 = auth)
    ∧ (pyTruthyAuth auth = true →
        pyTruthyAuth (send handler opts kh auth retries path outcomes).1
          = true) := by
  constructor
  · intro hfalsy
    simp [send, processResponse, pyOrAuth, hfalsy]
  · intro htruthy
    induction outcomes generalizing retries with
    | nil => simpa [send] using htruthy
    | cons o os ih =>
      cases o with
      | success r2 =>
        simpa [send, processResponse] using
          pyTruthy_pyOrAuth (handler.update_auth r2 (writtenBuffer r2)) auth
            htruthy
      | httpError e =>
        cases hh : handler.handle_httperror e with
        | isTrue =>
          cases retries with
          | none => simpa [send, hh] using ih none
          | some n =>
            cases n with
            | zero => simpa [send, hh] using htruthy
            | succ m => simpa [send, hh] using ih (some m)
        | isFalse => simpa [send, hh] using htruthy
        | substitute r2 =>
          simpa [send, hh, processResponse] using
            pyTruthy_pyOrAuth (handler.update_auth r2 (writtenBuffer r2)) auth
              htruthy
      | urlError reason => simpa [send] using htruthy

/-- C10 witness: a handler whose `update_auth` returns an empty mapping
leaves a concrete non-empty auth state unchanged across a successful
`send`. -/
theorem send_auth_never_cleared_witness :
    (send wHandlerEmpty wOpts none (some [("token", "t")]) none "/x"
        [.success wResp]).1
      = some [("token", "t")] :=
  (send_auth_never_cleared wHandlerEmpty wOpts none (some [("token", "t")])
    none "/x" wResp [] []).1 rfl

end Httpapi
